import Mathlib

/-!
Shallow embedding of the serverless-cloudfront-plugin core.

The distribution merger is embedded from the `CloudfrontConnector` class
(`addNewConfigToDistribution`, `setCacheBehaviorLambdaAssociations`,
`setCacheBehaviorCookies`, `setDisabledCacheBehavior` and the inner
`extracted` helper).  JavaScript objects become Lean structures; the
route table `behaviorsConfig` (a JS object keyed by route pattern, plus
the reserved key `DefaultCacheBehavior`) becomes an association list with
`List.lookup`; the `eventsToAssociate` object becomes an association list
as well, so that "key order of the input object" is representable; the
`in` operator becomes a `lookup ... ≠ none` test; in-place mutation of
the behavior list becomes `List.map`.

The version resolver is embedded from `getLatestVersion` of the plugin
entry point.  The Lambda `listVersionsByFunction` service is a function
from an optional pagination marker to either an error (the callback `err`
branch, which rejects) or a page `{Versions, NextMarker}`.  The promise
recursion is given explicit fuel; `none` as a result means the recursion
did not finish within the fuel.  `Versions.pop()` on an empty array
yields `undefined` in JS and the subsequent `lastVersion.Version` access
throws a TypeError; that crash is embedded as the error `LErr.typeError`.
-/

namespace CloudfrontPlugin

/-- One entry of a behavior's `LambdaFunctionAssociations.Items`. -/
structure LambdaAssociation where
  LambdaFunctionARN : String
  EventType : String
deriving DecidableEq, Repr

/-- The `LambdaFunctionAssociations` object of a cache behavior. -/
structure LambdaFunctionAssociations where
  Quantity : Nat
  Items : List LambdaAssociation
deriving DecidableEq, Repr

/-- The `WhitelistedNames` object inside a behavior's cookie config. -/
structure WhitelistedNames where
  Quantity : Nat
  Items : List String
deriving DecidableEq, Repr

/-- The `Cookies` object of a behavior's `ForwardedValues`.  The AWS API
omits `WhitelistedNames` when `Forward` is `none` or `all`, hence the
`Option`. -/
structure CookiesConfig where
  Forward : String
  WhitelistedNames : Option WhitelistedNames
deriving DecidableEq, Repr

/-- The `ForwardedValues` object of a cache behavior.  `QueryString` is a
representative field the merger never touches. -/
structure ForwardedValues where
  QueryString : Bool
  Cookies : CookiesConfig
deriving DecidableEq, Repr

/-- A CloudFront cache behavior.  Besides the fields the merger writes
(`LambdaFunctionAssociations` and `ForwardedValues.Cookies`), it carries
the matching key `PathPattern` and representative untouched fields
(`TargetOriginId`, `ViewerProtocolPolicy`, `MinTTL`). -/
structure CacheBehavior where
  PathPattern : String
  TargetOriginId : String
  ViewerProtocolPolicy : String
  MinTTL : Nat
  ForwardedValues : ForwardedValues
  LambdaFunctionAssociations : LambdaFunctionAssociations
deriving DecidableEq, Repr

/-- The `CacheBehaviors` object of a distribution config. -/
structure CacheBehaviors where
  Quantity : Nat
  Items : List CacheBehavior
deriving DecidableEq, Repr

/-- The distribution configuration, restricted to the parts the merger
reads or writes. -/
structure DistributionConfig where
  DefaultCacheBehavior : CacheBehavior
  CacheBehaviors : CacheBehaviors
deriving DecidableEq, Repr

/-- A resolved lambda function, as stored in the `lambdaFunctions`
mapping (the code reads its `FunctionArn`). -/
structure LambdaFn where
  FunctionArn : String
deriving DecidableEq, Repr

/-- One entry of the plugin's `behaviors` configuration table.  The JS
code probes each field with the `in` operator, i.e. by key presence, so
each field is an `Option`; in particular `disable` records both presence
and the boolean value (the code never reads the value). -/
structure BehaviorConfig where
  disable : Option Bool
  lambdaAssociations : Option (List (String × String))
  cookies : Option (List String)
deriving DecidableEq, Repr

/-- `CF_LAMBDA_EVENTS`: the constant object mapping config event keys to
CloudFront event type strings, in its JS insertion order (which is the
iteration order of `for ... in`). -/
def CF_LAMBDA_EVENTS : List (String × String) :=
  [("viewerRequest", "viewer-request"),
   ("viewerResponse", "viewer-response"),
   ("originRequest", "origin-request"),
   ("originResponse", "origin-response")]

/-- The association-list builder inside `setCacheBehaviorLambdaAssociations`:
iterate over `CF_LAMBDA_EVENTS` in its fixed order and, for each event key
present in `eventsToAssociate`, emit `{LambdaFunctionARN, EventType}`. -/
def buildLambdaAssociations (eventsToAssociate : List (String × String))
    (lambdaFunctions : String → LambdaFn) : List LambdaAssociation :=
  CF_LAMBDA_EVENTS.filterMap (fun ev =>
    match eventsToAssociate.lookup ev.fst with
    | some functionName => some ⟨(lambdaFunctions functionName).FunctionArn, ev.snd⟩
    | none => none)

/-- `setCacheBehaviorLambdaAssociations`: when the built association list
is non-empty, overwrite the behavior's `LambdaFunctionAssociations` with
it (quantity = its length); otherwise leave the behavior unchanged. -/
def setCacheBehaviorLambdaAssociations (cacheBehavior : CacheBehavior)
    (eventsToAssociate : List (String × String))
    (lambdaFunctions : String → LambdaFn) : CacheBehavior :=
  let lambdaAssociations := buildLambdaAssociations eventsToAssociate lambdaFunctions
  if lambdaAssociations.length ≠ 0 then
    { cacheBehavior with
        LambdaFunctionAssociations :=
          ⟨lambdaAssociations.length, lambdaAssociations⟩ }
  else
    cacheBehavior

/-- `setCacheBehaviorCookies`: when `behaviorCookies` is non-empty,
replace the behavior's cookie config with forward-mode `whitelist` and
the given names; otherwise leave the behavior unchanged. -/
def setCacheBehaviorCookies (cacheBehavior : CacheBehavior)
    (behaviorCookies : List String) : CacheBehavior :=
  if behaviorCookies.length ≠ 0 then
    { cacheBehavior with
        ForwardedValues :=
          { cacheBehavior.ForwardedValues with
              Cookies :=
                ⟨"whitelist", some ⟨behaviorCookies.length, behaviorCookies⟩⟩ } }
  else
    cacheBehavior

/-- `setDisabledCacheBehavior`: set the cookie config to forward-mode
`none` with an empty whitelist and clear the lambda associations. -/
def setDisabledCacheBehavior (cacheBehavior : CacheBehavior) : CacheBehavior :=
  { cacheBehavior with
      ForwardedValues :=
        { cacheBehavior.ForwardedValues with
            Cookies := ⟨"none", some ⟨0, []⟩⟩ },
      LambdaFunctionAssociations := ⟨0, []⟩ }

/-- The inner `extracted` helper of `addNewConfigToDistribution`: if the
entry has a `disable` key (any value), take the disabled path and return;
otherwise apply the `lambdaAssociations` step when that key is present,
then the `cookies` step when that key is present. -/
def extracted (lambdaFunctions : String → LambdaFn)
    (behaviorConfig : BehaviorConfig) (cacheBehavior : CacheBehavior) :
    CacheBehavior :=
  match behaviorConfig.disable with
  | some _ => setDisabledCacheBehavior cacheBehavior
  | none =>
    let cb1 :=
      match behaviorConfig.lambdaAssociations with
      | some eventsToAssociate =>
          setCacheBehaviorLambdaAssociations cacheBehavior eventsToAssociate lambdaFunctions
      | none => cacheBehavior
    match behaviorConfig.cookies with
    | some behaviorCookies => setCacheBehaviorCookies cb1 behaviorCookies
    | none => cb1

/-- `addNewConfigToDistribution`: apply the table entry under the
reserved key `DefaultCacheBehavior` (when present) to the default
behavior, then rewrite each element of `CacheBehaviors.Items` whose
`PathPattern` is a key of the table through `extracted`. -/
def addNewConfigToDistribution (distributionConfig : DistributionConfig)
    (lambdaFunctions : String → LambdaFn)
    (behaviorsConfig : List (String × BehaviorConfig)) : DistributionConfig :=
  let dc :=
    match behaviorsConfig.lookup "DefaultCacheBehavior" with
    | some behaviorConfig =>
        { distributionConfig with
            DefaultCacheBehavior :=
              extracted lambdaFunctions behaviorConfig distributionConfig.DefaultCacheBehavior }
    | none => distributionConfig
  { dc with
      CacheBehaviors :=
        { dc.CacheBehaviors with
            Items := dc.CacheBehaviors.Items.map (fun behavior =>
              match behaviorsConfig.lookup behavior.PathPattern with
              | some behaviorConfig => extracted lambdaFunctions behaviorConfig behavior
              | none => behavior) } }

/-- Errors the version resolver can end with: `svcErr` embeds the
`listVersionsByFunction` callback `err` branch (which rejects the
promise), `typeError` embeds the TypeError thrown by
`lastVersion.Version` when `Versions.pop()` returned `undefined`. -/
inductive LErr where
  | svcErr (msg : String)
  | typeError
deriving DecidableEq, Repr

/-- One response page of `listVersionsByFunction`: the versions plus an
optional pagination marker (markers are opaque strings in JS; here an
abstract `Nat`). -/
structure VPage (α : Type) where
  Versions : List α
  NextMarker : Option Nat
deriving DecidableEq, Repr

/-- The page-popping step at a terminal page: `data.Versions.pop()`
takes the last element; on an empty array it yields `undefined` and the
following `.Version` access throws. -/
def popLastVersion {α : Type} (versions : List α) : Except LErr α :=
  match versions.getLast? with
  | some v => Except.ok v
  | none => Except.error LErr.typeError

/-- `getLatestVersion`: the promise recursion, with explicit fuel.  Each
step calls the service with the current marker; an error rejects, a page
with a `NextMarker` recurses on that marker, a terminal page resolves to
its popped last element.  `none` means the recursion did not finish
within `fuel` steps. -/
def getLatestVersion {α : Type} (svc : Option Nat → Except LErr (VPage α)) :
    Nat → Option Nat → Option (Except LErr α)
  | 0, _ => none
  | fuel + 1, paginationMarker =>
    match svc paginationMarker with
    | Except.error e => some (Except.error e)
    | Except.ok data =>
      match data.NextMarker with
      | some m => getLatestVersion svc fuel (some m)
      | none => some (popLastVersion data.Versions)

/-- The sequence of markers `getLatestVersion` requests from the
service, mirroring its recursion step for step (bounded by the fuel). -/
def requestTrace {α : Type} (svc : Option Nat → Except LErr (VPage α)) :
    Nat → Option Nat → List (Option Nat)
  | 0, _ => []
  | fuel + 1, paginationMarker =>
    paginationMarker ::
      (match svc paginationMarker with
       | Except.error _ => []
       | Except.ok data =>
         match data.NextMarker with
         | some m => requestTrace svc fuel (some m)
         | none => [])

/-- A well-behaved paginated service built from a finite list of pages:
the initial call (no marker) serves page 0, marker `i` serves page `i`,
and each page's `NextMarker` points at the next index, absent on the
last page.  A request beyond the chain is a service error. -/
def chainSvc {α : Type} (pages : List (List α)) :
    Option Nat → Except LErr (VPage α) :=
  fun marker =>
    let i := marker.getD 0
    match pages.get? i with
    | some versions =>
        Except.ok ⟨versions, if i + 1 < pages.length then some (i + 1) else none⟩
    | none => Except.error (LErr.svcErr "NoSuchPage")

/-- A misbehaving service that reports the same pagination marker on
every response. -/
def loopSvc : Option Nat → Except LErr (VPage Nat) :=
  fun _ => Except.ok ⟨[0], some 7⟩

/-- The `Quantity`-matches-`Items.length` check for a lambda association
object. -/
def lfaInv (l : LambdaFunctionAssociations) : Bool :=
  l.Quantity == l.Items.length

/-- The `Quantity`-matches-`Items.length` check for a cookie config: it
constrains `WhitelistedNames` only when that object is set. -/
def cookiesInv (c : CookiesConfig) : Bool :=
  match c.WhitelistedNames with
  | some w => w.Quantity == w.Items.length
  | none => true

/-- Both quantity checks for one cache behavior. -/
def behaviorInv (b : CacheBehavior) : Bool :=
  lfaInv b.LambdaFunctionAssociations && cookiesInv b.ForwardedValues.Cookies

/-- The quantity invariant over a whole distribution config: it holds
for the default behavior and for every listed behavior. -/
def configInv (dc : DistributionConfig) : Bool :=
  behaviorInv dc.DefaultCacheBehavior && dc.CacheBehaviors.Items.all behaviorInv

/-- The frame of a cache behavior: every field the merger never writes
(everything except `LambdaFunctionAssociations` and
`ForwardedValues.Cookies`). -/
def sameFrame (b' b : CacheBehavior) : Prop :=
  b'.PathPattern = b.PathPattern ∧
  b'.TargetOriginId = b.TargetOriginId ∧
  b'.ViewerProtocolPolicy = b.ViewerProtocolPolicy ∧
  b'.MinTTL = b.MinTTL ∧
  b'.ForwardedValues.QueryString = b.ForwardedValues.QueryString

/-- A concrete resolved-function environment for witnesses. -/
def lfEx : String → LambdaFn := fun n => ⟨"arn:aws:lambda:" ++ n ++ ":3"⟩

/-- A concrete cache behavior with one lambda association and two
whitelisted cookies, used by witnesses and counterexamples. -/
def cbEx : CacheBehavior :=
  { PathPattern := "pages_contents/*"
    TargetOriginId := "origin-1"
    ViewerProtocolPolicy := "redirect-to-https"
    MinTTL := 60
    ForwardedValues :=
      { QueryString := true
        Cookies := ⟨"whitelist", some ⟨2, ["a", "b"]⟩⟩ }
    LambdaFunctionAssociations :=
      ⟨1, [⟨"arn:aws:lambda:old:1", "viewer-request"⟩]⟩ }

/-- A second concrete cache behavior, with no associations and no cookie
whitelist, used by witnesses. -/
def cbEx2 : CacheBehavior :=
  { PathPattern := "special-route/*"
    TargetOriginId := "origin-2"
    ViewerProtocolPolicy := "allow-all"
    MinTTL := 0
    ForwardedValues :=
      { QueryString := false
        Cookies := ⟨"none", none⟩ }
    LambdaFunctionAssociations := ⟨0, []⟩ }

/-- A concrete distribution config holding `cbEx` and `cbEx2`. -/
def dcEx : DistributionConfig :=
  { DefaultCacheBehavior := cbEx2
    CacheBehaviors := ⟨2, [cbEx, cbEx2]⟩ }

/-- A concrete route table for witnesses: it addresses `cbEx`'s route
with two lambda associations and two cookies, and does not mention
`cbEx2`'s route nor the default key. -/
def tableEx : List (String × BehaviorConfig) :=
  [("pages_contents/*",
    ⟨none,
     some [("viewerRequest", "f1"), ("viewerResponse", "f2")],
     some ["oatmeal_cookie", "chocolate-cookie"]⟩)]

/-- A table entry carrying one lambda association, used in the
sequential-application counterexample. -/
def entrySeq1 : BehaviorConfig :=
  ⟨none, some [("viewerRequest", "f1")], none⟩

/-- A table entry whose `lambdaAssociations` key is present but holds no
recognized event, used in the sequential-application counterexample. -/
def entrySeq2 : BehaviorConfig :=
  ⟨none, some [], none⟩

/-- Three concrete version pages of sizes 50, 50 and 7; the last element
of the final page is 106. -/
def pagesEx : List (List Nat) :=
  [List.range 50, List.range 50, (List.range 7).map (· + 100)]

end CloudfrontPlugin

namespace CloudfrontPlugin

theorem sameFrame_refl (b : CacheBehavior) : sameFrame b b :=
  ⟨rfl, rfl, rfl, rfl, rfl⟩

theorem sameFrame_trans {a b c : CacheBehavior}
    (h1 : sameFrame a b) (h2 : sameFrame b c) : sameFrame a c := by
  obtain ⟨p1, t1, v1, m1, q1⟩ := h1
  obtain ⟨p2, t2, v2, m2, q2⟩ := h2
  exact ⟨p1.trans p2, t1.trans t2, v1.trans v2, m1.trans m2, q1.trans q2⟩

theorem setCacheBehaviorLambdaAssociations_sameFrame (cb : CacheBehavior)
    (ev : List (String × String)) (lf : String → LambdaFn) :
    sameFrame (setCacheBehaviorLambdaAssociations cb ev lf) cb := by
  simp only [setCacheBehaviorLambdaAssociations]
  split
  · exact ⟨rfl, rfl, rfl, rfl, rfl⟩
  · exact sameFrame_refl cb

theorem setCacheBehaviorCookies_sameFrame (cb : CacheBehavior)
    (cs : List String) : sameFrame (setCacheBehaviorCookies cb cs) cb := by
  simp only [setCacheBehaviorCookies]
  split
  · exact ⟨rfl, rfl, rfl, rfl, rfl⟩
  · exact sameFrame_refl cb

theorem setDisabledCacheBehavior_sameFrame (cb : CacheBehavior) :
    sameFrame (setDisabledCacheBehavior cb) cb :=
  ⟨rfl, rfl, rfl, rfl, rfl⟩

theorem extracted_sameFrame (lf : String → LambdaFn) (bc : BehaviorConfig)
    (cb : CacheBehavior) : sameFrame (extracted lf bc cb) cb := by
  obtain ⟨d, la, cks⟩ := bc
  cases d with
  | some v => exact setDisabledCacheBehavior_sameFrame cb
  | none =>
    cases la with
    | some ev =>
      cases cks with
      | some cs =>
        exact sameFrame_trans
          (setCacheBehaviorCookies_sameFrame _ cs)
          (setCacheBehaviorLambdaAssociations_sameFrame cb ev lf)
      | none => exact setCacheBehaviorLambdaAssociations_sameFrame cb ev lf
    | none =>
      cases cks with
      | some cs => exact setCacheBehaviorCookies_sameFrame cb cs
      | none => exact sameFrame_refl cb

theorem setCacheBehaviorLambdaAssociations_FV (cb : CacheBehavior)
    (ev : List (String × String)) (lf : String → LambdaFn) :
    (setCacheBehaviorLambdaAssociations cb ev lf).ForwardedValues
      = cb.ForwardedValues := by
  simp only [setCacheBehaviorLambdaAssociations]
  split <;> rfl

theorem setCacheBehaviorCookies_LFA (cb : CacheBehavior) (cs : List String) :
    (setCacheBehaviorCookies cb cs).LambdaFunctionAssociations
      = cb.LambdaFunctionAssociations := by
  simp only [setCacheBehaviorCookies]
  split <;> rfl

theorem setCacheBehaviorLambdaAssociations_sets (cb : CacheBehavior)
    (ev : List (String × String)) (lf : String → LambdaFn)
    (h : buildLambdaAssociations ev lf ≠ []) :
    (setCacheBehaviorLambdaAssociations cb ev lf).LambdaFunctionAssociations
      = ⟨(buildLambdaAssociations ev lf).length, buildLambdaAssociations ev lf⟩ := by
  simp only [setCacheBehaviorLambdaAssociations]
  rw [if_pos]
  simpa using h

theorem setCacheBehaviorCookies_sets (cb : CacheBehavior) (cs : List String)
    (h : cs ≠ []) :
    (setCacheBehaviorCookies cb cs).ForwardedValues.Cookies
      = ⟨"whitelist", some ⟨cs.length, cs⟩⟩ := by
  simp only [setCacheBehaviorCookies]
  rw [if_pos]
  simpa using h

/-- Claim C3: applying a table entry with disable=true to any behavior
(with any number of prior associations and whitelisted cookies) yields an
association list of quantity 0 with no items, cookie-forward mode "none"
and an empty cookie whitelist of quantity 0. -/
theorem disable_true_clears (lf : String → LambdaFn)
    (la : Option (List (String × String))) (cks : Option (List String))
    (cb : CacheBehavior) :
    (extracted lf ⟨some true, la, cks⟩ cb).LambdaFunctionAssociations = ⟨0, []⟩
    ∧ (extracted lf ⟨some true, la, cks⟩ cb).ForwardedValues.Cookies
        = ⟨"none", some ⟨0, []⟩⟩ :=
  ⟨rfl, rfl⟩

/-- Claim C4, counterexample: an entry with disable=false (and a
non-trivial lambda association and cookie list) is routed to the clearing
path rather than being processed through the eventAssociations and
cookieWhitelist steps: its output has no associations and forward mode
"none", although the entry's association list would have been non-empty
and its cookie list is non-empty. -/
theorem disable_false_clears_cex :
    (extracted lfEx ⟨some false, some [("viewerRequest", "f1")], some ["c1"]⟩
        cbEx2).LambdaFunctionAssociations.Items = []
    ∧ buildLambdaAssociations [("viewerRequest", "f1")] lfEx ≠ []
    ∧ (extracted lfEx ⟨some false, some [("viewerRequest", "f1")], some ["c1"]⟩
        cbEx2).ForwardedValues.Cookies.Forward = "none" := by
  refine ⟨rfl, ?_, rfl⟩
  decide

/-- Claim C4, amended: the clearing path is taken exactly when the
entry's disable key is present, whatever its boolean value (so also for
disable=false); only an entry without the disable key is processed
through the eventAssociations and cookieWhitelist steps. -/
theorem disable_presence_gates (lf : String → LambdaFn) (v : Bool)
    (la : Option (List (String × String))) (cks : Option (List String))
    (ev : List (String × String)) (cs : List String) (cb : CacheBehavior)
    (hev : buildLambdaAssociations ev lf ≠ []) (hcs : cs ≠ []) :
    extracted lf ⟨some v, la, cks⟩ cb = setDisabledCacheBehavior cb
    ∧ (extracted lf ⟨none, some ev, some cs⟩ cb).LambdaFunctionAssociations.Items
        = buildLambdaAssociations ev lf
    ∧ (extracted lf ⟨none, some ev, some cs⟩ cb).ForwardedValues.Cookies
        = ⟨"whitelist", some ⟨cs.length, cs⟩⟩ := by
  refine ⟨rfl, ?_, ?_⟩
  · show (setCacheBehaviorCookies
        (setCacheBehaviorLambdaAssociations cb ev lf) cs).LambdaFunctionAssociations.Items
      = buildLambdaAssociations ev lf
    rw [setCacheBehaviorCookies_LFA, setCacheBehaviorLambdaAssociations_sets cb ev lf hev]
  · show (setCacheBehaviorCookies
        (setCacheBehaviorLambdaAssociations cb ev lf) cs).ForwardedValues.Cookies
      = ⟨"whitelist", some ⟨cs.length, cs⟩⟩
    exact setCacheBehaviorCookies_sets _ cs hcs

/-- Witness for the amended C4 theorem at a concrete entry, behavior and
function environment. -/
theorem disable_presence_gates_witness :
    extracted lfEx ⟨some false, some [("viewerRequest", "f1")], some ["c1"]⟩ cbEx
        = setDisabledCacheBehavior cbEx
    ∧ (extracted lfEx ⟨none, some [("viewerRequest", "f1")], some ["c1"]⟩
        cbEx).LambdaFunctionAssociations.Items
        = buildLambdaAssociations [("viewerRequest", "f1")] lfEx
    ∧ (extracted lfEx ⟨none, some [("viewerRequest", "f1")], some ["c1"]⟩
        cbEx).ForwardedValues.Cookies
        = ⟨"whitelist", some ⟨["c1"].length, ["c1"]⟩⟩ :=
  disable_presence_gates lfEx false
    (some [("viewerRequest", "f1")]) (some ["c1"])
    [("viewerRequest", "f1")] ["c1"] cbEx (by decide) (by decide)

/-- Claim C2, counterexample: a second-pass entry that carries
lambdaAssociations (present, but specifying none of the four enumerated
events) and no disable leaves the first pass's association list in
place, so the resulting count is 1 and not the 0 events specified by the
second entry. -/
theorem replace_not_append_cex :
    (extracted lfEx entrySeq2
        (extracted lfEx entrySeq1 cbEx2)).LambdaFunctionAssociations.Quantity = 1
    ∧ buildLambdaAssociations [] lfEx = []
    ∧ (extracted lfEx entrySeq2
        (extracted lfEx entrySeq1 cbEx2)).LambdaFunctionAssociations.Quantity
        ≠ (buildLambdaAssociations [] lfEx).length := by
  refine ⟨?_, rfl, ?_⟩ <;> decide

/-- Claim C2, amended: for entries carrying lambdaAssociations that
specify at least one enumerated event (and no disable), the emitted
association list replaces the behavior's existing list in full, so after
two passes the association items and quantity come from the second
entry alone; an entry whose lambdaAssociations specifies no enumerated
event leaves the existing list unchanged. -/
theorem replace_not_append (lf : String → LambdaFn) (cb : CacheBehavior)
    (e1 : BehaviorConfig) (ev2 : List (String × String))
    (cks : Option (List String))
    (h : buildLambdaAssociations ev2 lf ≠ []) :
    (extracted lf ⟨none, some ev2, cks⟩
        (extracted lf e1 cb)).LambdaFunctionAssociations.Items
      = buildLambdaAssociations ev2 lf
    ∧ (extracted lf ⟨none, some ev2, cks⟩
        (extracted lf e1 cb)).LambdaFunctionAssociations.Quantity
      = (buildLambdaAssociations ev2 lf).length := by
  set cb1 := extracted lf e1 cb with hcb1
  have hlfa : (extracted lf ⟨none, some ev2, cks⟩ cb1).LambdaFunctionAssociations
      = ⟨(buildLambdaAssociations ev2 lf).length, buildLambdaAssociations ev2 lf⟩ := by
    cases cks with
    | some cs =>
      show (setCacheBehaviorCookies
          (setCacheBehaviorLambdaAssociations cb1 ev2 lf) cs).LambdaFunctionAssociations = _
      rw [setCacheBehaviorCookies_LFA, setCacheBehaviorLambdaAssociations_sets cb1 ev2 lf h]
    | none =>
      show (setCacheBehaviorLambdaAssociations cb1 ev2 lf).LambdaFunctionAssociations = _
      rw [setCacheBehaviorLambdaAssociations_sets cb1 ev2 lf h]
  rw [hlfa]
  exact ⟨rfl, rfl⟩

/-- Witness for the amended C2 theorem: a first pass with one event
followed by a second pass with one different event ends with exactly the
second pass's single association. -/
theorem replace_not_append_witness :
    (extracted lfEx ⟨none, some [("originRequest", "g1")], none⟩
        (extracted lfEx entrySeq1 cbEx2)).LambdaFunctionAssociations.Items
      = buildLambdaAssociations [("originRequest", "g1")] lfEx
    ∧ (extracted lfEx ⟨none, some [("originRequest", "g1")], none⟩
        (extracted lfEx entrySeq1 cbEx2)).LambdaFunctionAssociations.Quantity
      = (buildLambdaAssociations [("originRequest", "g1")] lfEx).length :=
  replace_not_append lfEx cbEx2 entrySeq1 [("originRequest", "g1")] none (by decide)

/-- Claim C5: the emitted association list is ordered viewer-request,
viewer-response, origin-request, origin-response (unset events skipped)
and depends only on the key-to-value mapping of the input object, not on
its key order; in particular an entry setting only viewerResponse and
originRequest emits [viewer-response, origin-request] under either key
order. -/
theorem event_order_deterministic (lf : String → LambdaFn) (f g : String)
    (ev1 ev2 : List (String × String))
    (h : ∀ k, ev1.lookup k = ev2.lookup k) :
    buildLambdaAssociations ev1 lf = buildLambdaAssociations ev2 lf
    ∧ buildLambdaAssociations [("viewerResponse", f), ("originRequest", g)] lf
      = [⟨(lf f).FunctionArn, "viewer-response"⟩, ⟨(lf g).FunctionArn, "origin-request"⟩]
    ∧ buildLambdaAssociations [("originRequest", g), ("viewerResponse", f)] lf
      = [⟨(lf f).FunctionArn, "viewer-response"⟩, ⟨(lf g).FunctionArn, "origin-request"⟩] := by
  refine ⟨?_, rfl, rfl⟩
  unfold buildLambdaAssociations
  have hfun : (fun ev : String × String =>
      match ev1.lookup ev.fst with
      | some functionName => some (⟨(lf functionName).FunctionArn, ev.snd⟩ : LambdaAssociation)
      | none => none)
      = (fun ev : String × String =>
      match ev2.lookup ev.fst with
      | some functionName => some (⟨(lf functionName).FunctionArn, ev.snd⟩ : LambdaAssociation)
      | none => none) := by
    funext ev
    rw [h ev.fst]
  rw [hfun]

/-- Witness for C5: the two key orders of a concrete two-event entry
produce the same association list, in the fixed event order. -/
theorem event_order_deterministic_witness :
    buildLambdaAssociations [("viewerResponse", "f2"), ("originRequest", "g2")] lfEx
      = buildLambdaAssociations [("originRequest", "g2"), ("viewerResponse", "f2")] lfEx
    ∧ buildLambdaAssociations [("viewerResponse", "f2"), ("originRequest", "g2")] lfEx
      = [⟨(lfEx "f2").FunctionArn, "viewer-response"⟩,
         ⟨(lfEx "g2").FunctionArn, "origin-request"⟩] := by
  have h := event_order_deterministic lfEx "f2" "g2"
    [("viewerResponse", "f2"), ("originRequest", "g2")]
    [("originRequest", "g2"), ("viewerResponse", "f2")]
    (fun k => by
      by_cases h1 : k = "viewerResponse"
      · subst h1; rfl
      · by_cases h2 : k = "originRequest"
        · subst h2; rfl
        · have e1 : (k == "viewerResponse") = false := by simp [beq_iff_eq, h1]
          have e2 : (k == "originRequest") = false := by simp [beq_iff_eq, h2]
          simp [List.lookup, e1, e2])
  exact ⟨h.1, h.2.1⟩

/-- Claim C6: an entry whose cookies list is present and non-empty
replaces the behavior's cookie config with forward-mode "whitelist" and
exactly the given names in the given order (quantity = length, duplicates
kept); an entry whose cookies list is present but empty leaves the
behavior's cookie config entirely unchanged. -/
theorem cookie_whitelist_semantics (lf : String → LambdaFn)
    (la : Option (List (String × String))) (cb : CacheBehavior)
    (cs : List String) (h : cs ≠ []) :
    (extracted lf ⟨none, la, some cs⟩ cb).ForwardedValues.Cookies
      = ⟨"whitelist", some ⟨cs.length, cs⟩⟩
    ∧ (extracted lf ⟨none, la, some []⟩ cb).ForwardedValues.Cookies
      = cb.ForwardedValues.Cookies := by
  cases la with
  | some ev =>
    constructor
    · show (setCacheBehaviorCookies
          (setCacheBehaviorLambdaAssociations cb ev lf) cs).ForwardedValues.Cookies = _
      exact setCacheBehaviorCookies_sets _ cs h
    · show (setCacheBehaviorCookies
          (setCacheBehaviorLambdaAssociations cb ev lf) []).ForwardedValues.Cookies = _
      show (setCacheBehaviorLambdaAssociations cb ev lf).ForwardedValues.Cookies = _
      rw [setCacheBehaviorLambdaAssociations_FV]
  | none =>
    constructor
    · exact setCacheBehaviorCookies_sets cb cs h
    · rfl

/-- Witness for C6 at a concrete behavior, entry and cookie list with a
duplicate name. -/
theorem cookie_whitelist_semantics_witness :
    (extracted lfEx ⟨none, some [("viewerRequest", "f1")], some ["d", "d", "e"]⟩
        cbEx).ForwardedValues.Cookies
      = ⟨"whitelist", some ⟨(["d", "d", "e"] : List String).length, ["d", "d", "e"]⟩⟩
    ∧ (extracted lfEx ⟨none, some [("viewerRequest", "f1")], some []⟩
        cbEx).ForwardedValues.Cookies
      = cbEx.ForwardedValues.Cookies :=
  cookie_whitelist_semantics lfEx (some [("viewerRequest", "f1")]) cbEx
    ["d", "d", "e"] (by decide)

theorem addNewConfigToDistribution_Items (dc : DistributionConfig)
    (lf : String → LambdaFn) (table : List (String × BehaviorConfig)) :
    (addNewConfigToDistribution dc lf table).CacheBehaviors.Items
      = dc.CacheBehaviors.Items.map (fun behavior =>
          match table.lookup behavior.PathPattern with
          | some bc => extracted lf bc behavior
          | none => behavior) := by
  unfold addNewConfigToDistribution
  cases table.lookup "DefaultCacheBehavior" <;> rfl

theorem addNewConfigToDistribution_Quantity (dc : DistributionConfig)
    (lf : String → LambdaFn) (table : List (String × BehaviorConfig)) :
    (addNewConfigToDistribution dc lf table).CacheBehaviors.Quantity
      = dc.CacheBehaviors.Quantity := by
  unfold addNewConfigToDistribution
  cases table.lookup "DefaultCacheBehavior" <;> rfl

theorem addNewConfigToDistribution_Default (dc : DistributionConfig)
    (lf : String → LambdaFn) (table : List (String × BehaviorConfig)) :
    (addNewConfigToDistribution dc lf table).DefaultCacheBehavior
      = match table.lookup "DefaultCacheBehavior" with
        | some bc => extracted lf bc dc.DefaultCacheBehavior
        | none => dc.DefaultCacheBehavior := by
  unfold addNewConfigToDistribution
  cases table.lookup "DefaultCacheBehavior" <;> rfl

/-- Claim C1: for every distribution config, function environment and
route table, (i) a listed behavior whose path pattern is not a table key
is returned exactly unchanged at its position, (ii) the default behavior
is unchanged when the reserved key is absent, (iii) every listed behavior
and (iv) the default behavior keep all fields other than the lambda
associations and the cookie config, and (v) merging with the empty table
is the identity. -/
theorem addNewConfigToDistribution_frame (dc : DistributionConfig)
    (lf : String → LambdaFn) (table : List (String × BehaviorConfig)) :
    (∀ i b, dc.CacheBehaviors.Items.get? i = some b →
       table.lookup b.PathPattern = none →
       (addNewConfigToDistribution dc lf table).CacheBehaviors.Items.get? i = some b)
    ∧ (table.lookup "DefaultCacheBehavior" = none →
       (addNewConfigToDistribution dc lf table).DefaultCacheBehavior
         = dc.DefaultCacheBehavior)
    ∧ (∀ i b, dc.CacheBehaviors.Items.get? i = some b →
       ∃ b', (addNewConfigToDistribution dc lf table).CacheBehaviors.Items.get? i = some b'
          ∧ sameFrame b' b)
    ∧ sameFrame (addNewConfigToDistribution dc lf table).DefaultCacheBehavior
        dc.DefaultCacheBehavior
    ∧ addNewConfigToDistribution dc lf [] = dc := by
  refine ⟨?_, ?_, ?_, ?_, ?_⟩
  · intro i b hib hlk
    rw [addNewConfigToDistribution_Items, List.get?_map, hib]
    simp [hlk]
  · intro hlk
    rw [addNewConfigToDistribution_Default, hlk]
  · intro i b hib
    refine ⟨match table.lookup b.PathPattern with
            | some bc => extracted lf bc b
            | none => b, ?_, ?_⟩
    · rw [addNewConfigToDistribution_Items, List.get?_map, hib]
      rfl
    · cases h : table.lookup b.PathPattern with
      | some bc => simp only [h]; exact extracted_sameFrame lf bc b
      | none => simp only [h]; exact sameFrame_refl b
  · rw [addNewConfigToDistribution_Default]
    cases h : table.lookup "DefaultCacheBehavior" with
    | some bc => exact extracted_sameFrame lf bc dc.DefaultCacheBehavior
    | none => exact sameFrame_refl dc.DefaultCacheBehavior
  · have hItems : (addNewConfigToDistribution dc lf []).CacheBehaviors.Items
        = dc.CacheBehaviors.Items := by
      rw [addNewConfigToDistribution_Items]
      exact List.map_id' dc.CacheBehaviors.Items
    have hQ : (addNewConfigToDistribution dc lf []).CacheBehaviors.Quantity
        = dc.CacheBehaviors.Quantity := addNewConfigToDistribution_Quantity dc lf []
    have hD : (addNewConfigToDistribution dc lf []).DefaultCacheBehavior
        = dc.DefaultCacheBehavior := by
      rw [addNewConfigToDistribution_Default]
      rfl
    obtain ⟨cbs, hcbs⟩ : ∃ cbs, (addNewConfigToDistribution dc lf []).CacheBehaviors = cbs :=
      ⟨_, rfl⟩
    obtain ⟨defb, hdefb⟩ : ∃ defb, (addNewConfigToDistribution dc lf []).DefaultCacheBehavior = defb :=
      ⟨_, rfl⟩
    have : addNewConfigToDistribution dc lf [] = ⟨defb, cbs⟩ := by
      rw [← hcbs, ← hdefb]
    rw [this]
    rw [hcbs] at hItems hQ
    rw [hdefb] at hD
    obtain ⟨q, items⟩ := cbs
    obtain ⟨defb0, ⟨q0, items0⟩⟩ := dc
    simp only at hItems hQ hD
    rw [hItems, hQ, hD]

/-- Witness for C1 at a concrete distribution (one addressed behavior,
one unaddressed behavior, unaddressed default) and a concrete table. -/
theorem addNewConfigToDistribution_frame_witness :
    (addNewConfigToDistribution dcEx lfEx tableEx).CacheBehaviors.Items.get? 1
        = some cbEx2
    ∧ (addNewConfigToDistribution dcEx lfEx tableEx).DefaultCacheBehavior
        = dcEx.DefaultCacheBehavior
    ∧ (∃ b', (addNewConfigToDistribution dcEx lfEx tableEx).CacheBehaviors.Items.get? 0
          = some b' ∧ sameFrame b' cbEx)
    ∧ sameFrame (addNewConfigToDistribution dcEx lfEx tableEx).DefaultCacheBehavior
        dcEx.DefaultCacheBehavior
    ∧ addNewConfigToDistribution dcEx lfEx [] = dcEx := by
  obtain ⟨h1, h2, h3, h4, h5⟩ := addNewConfigToDistribution_frame dcEx lfEx tableEx
  exact ⟨h1 1 cbEx2 rfl (by decide), h2 (by decide), h3 0 cbEx rfl, h4, h5⟩

theorem setCacheBehaviorLambdaAssociations_behaviorInv (cb : CacheBehavior)
    (ev : List (String × String)) (lf : String → LambdaFn)
    (h : behaviorInv cb = true) :
    behaviorInv (setCacheBehaviorLambdaAssociations cb ev lf) = true := by
  simp only [setCacheBehaviorLambdaAssociations]
  split
  · simp only [behaviorInv, lfaInv, cookiesInv] at h ⊢
    simp only [Bool.and_eq_true] at h ⊢
    exact ⟨by simp, h.2⟩
  · exact h

theorem setCacheBehaviorCookies_behaviorInv (cb : CacheBehavior)
    (cs : List String) (h : behaviorInv cb = true) :
    behaviorInv (setCacheBehaviorCookies cb cs) = true := by
  simp only [setCacheBehaviorCookies]
  split
  · simp only [behaviorInv, lfaInv, cookiesInv] at h ⊢
    simp only [Bool.and_eq_true] at h ⊢
    exact ⟨h.1, by simp⟩
  · exact h

theorem setDisabledCacheBehavior_behaviorInv (cb : CacheBehavior) :
    behaviorInv (setDisabledCacheBehavior cb) = true := rfl

theorem extracted_behaviorInv (lf : String → LambdaFn) (bc : BehaviorConfig)
    (cb : CacheBehavior) (h : behaviorInv cb = true) :
    behaviorInv (extracted lf bc cb) = true := by
  obtain ⟨d, la, cks⟩ := bc
  cases d with
  | some v => exact setDisabledCacheBehavior_behaviorInv cb
  | none =>
    cases la with
    | some ev =>
      cases cks with
      | some cs =>
        exact setCacheBehaviorCookies_behaviorInv _ cs
          (setCacheBehaviorLambdaAssociations_behaviorInv cb ev lf h)
      | none => exact setCacheBehaviorLambdaAssociations_behaviorInv cb ev lf h
    | none =>
      cases cks with
      | some cs => exact setCacheBehaviorCookies_behaviorInv cb cs h
      | none => exact h

/-- Claim C10: every write of the merger establishes
Quantity = Items.length, so a distribution config satisfying the
quantity invariant (for associations and for any set whitelist) still
satisfies it after the merge, for every table and function
environment. -/
theorem merge_preserves_quantity_invariant (dc : DistributionConfig)
    (lf : String → LambdaFn) (table : List (String × BehaviorConfig))
    (h : configInv dc = true) :
    configInv (addNewConfigToDistribution dc lf table) = true := by
  simp only [configInv, Bool.and_eq_true] at h ⊢
  constructor
  · rw [addNewConfigToDistribution_Default]
    cases hd : table.lookup "DefaultCacheBehavior" with
    | some bc => exact extracted_behaviorInv lf bc dc.DefaultCacheBehavior h.1
    | none => exact h.1
  · rw [addNewConfigToDistribution_Items]
    rw [List.all_eq_true] at h ⊢
    intro x hx
    rw [List.mem_map] at hx
    obtain ⟨b, hb, rfl⟩ := hx
    cases hl : table.lookup b.PathPattern with
    | some bc => simp only [hl]; exact extracted_behaviorInv lf bc b (h.2 b hb)
    | none => simp only [hl]; exact h.2 b hb

/-- Witness for C10 at the concrete distribution and table. -/
theorem merge_preserves_quantity_invariant_witness :
    configInv (addNewConfigToDistribution dcEx lfEx tableEx) = true :=
  merge_preserves_quantity_invariant dcEx lfEx tableEx (by decide)

theorem chainSvc_run {α : Type} (pages : List (List α)) :
    ∀ (fuel i : Nat), i < pages.length → pages.length - i ≤ fuel →
    getLatestVersion (chainSvc pages) fuel (some i)
      = some (popLastVersion (pages.getLastD [])) := by
  intro fuel
  induction fuel with
  | zero => intro i hi hf; omega
  | succ n ih =>
    intro i hi hf
    have hget : pages.get? i = some pages[i] := by
      rw [List.get?_eq_getElem?]
      exact List.getElem?_eq_getElem hi
    simp only [getLatestVersion, chainSvc, Option.getD_some]
    rw [hget]
    by_cases hlt : i + 1 < pages.length
    · simp only [if_pos hlt]
      exact ih (i + 1) hlt (by omega)
    · simp only [if_neg hlt]
      have hi1 : i = pages.length - 1 := by omega
      subst hi1
      have hi0 : pages.length - 1 < pages.length := by omega
      have hlast : pages.getLastD [] = pages[pages.length - 1] := by
        rw [List.getLastD_eq_getLast?, List.getLast?_eq_getElem?,
            List.getElem?_eq_getElem hi0]
        rfl
      rw [hlast]

theorem chainSvc_run_from_none {α : Type} (pages : List (List α)) (fuel : Nat)
    (hne : pages ≠ []) (hfuel : pages.length ≤ fuel) :
    getLatestVersion (chainSvc pages) fuel none
      = some (popLastVersion (pages.getLastD [])) := by
  have hpos : 0 < pages.length := List.length_pos.mpr hne
  cases fuel with
  | zero => omega
  | succ n =>
    have hswap : getLatestVersion (chainSvc pages) (n + 1) none
        = getLatestVersion (chainSvc pages) (n + 1) (some 0) := rfl
    rw [hswap]
    exact chainSvc_run pages (n + 1) 0 hpos (by omega)

/-- Claim C7: against a service serving a finite chain of pages, the
resolver returns the last element of the final page, however many pages
the chain has; it never stops at an intermediate page. -/
theorem pagination_returns_last_of_final_page {α : Type} (pages : List (List α))
    (fuel : Nat) (v : α) (hne : pages ≠ []) (hfuel : pages.length ≤ fuel)
    (hv : (pages.getLastD []).getLast? = some v) :
    getLatestVersion (chainSvc pages) fuel none = some (Except.ok v) := by
  rw [chainSvc_run_from_none pages fuel hne hfuel]
  unfold popLastVersion
  rw [hv]

/-- Witness for C7: three pages of 50, 50 and 7 versions; the resolver
returns the last element of page 3 (the value 106), not the last element
of page 1 or page 2. -/
theorem pagination_returns_last_of_final_page_witness :
    getLatestVersion (chainSvc pagesEx) 3 none = some (Except.ok 106) :=
  pagination_returns_last_of_final_page pagesEx 3 106 (by decide) (by decide)
    (by decide)

/-- Claim C8, counterexample: against a service that reports pagination
marker 7 on every response, the resolver requests marker 7 twice within
its first three calls — it does re-request the same cursor — and does
not finish within 17 steps of fuel. -/
theorem resolver_rerequests_cursor_cex :
    requestTrace loopSvc 3 none = [none, some 7, some 7]
    ∧ getLatestVersion loopSvc 17 none = none :=
  ⟨rfl, rfl⟩

/-- Claim C8, amended: the recursion terminates for every service whose
responses form a finite cursor chain (each response either terminal or
advancing to the next page); the code forwards the service-supplied
cursor unchanged, so a service that keeps returning an already-seen
cursor makes the resolver re-request it and recurse without
terminating. -/
theorem resolver_terminates_on_finite_chain {α : Type} (pages : List (List α))
    (fuel : Nat) (hfuel : pages.length < fuel) :
    (getLatestVersion (chainSvc pages) fuel none).isSome = true := by
  by_cases hne : pages = []
  · subst hne
    cases fuel with
    | zero => omega
    | succ n => rfl
  · rw [chainSvc_run_from_none pages fuel hne (by omega)]
    rfl

/-- Witness for the amended C8 theorem on a concrete two-page chain. -/
theorem resolver_terminates_on_finite_chain_witness :
    (getLatestVersion (chainSvc [[1], [2]]) 3 none).isSome = true :=
  resolver_terminates_on_finite_chain [[1], [2]] 3 (by decide)

/-- Claim C9: when the final page of the chain carries zero versions,
the resolver produces an error (the embedded TypeError of popping an
empty version array) and never a resolved value. -/
theorem empty_final_page_errors {α : Type} (pages : List (List α)) (fuel : Nat)
    (hne : pages ≠ []) (hfuel : pages.length ≤ fuel)
    (hempty : pages.getLastD [] = []) :
    getLatestVersion (chainSvc pages) fuel none
      = some (Except.error LErr.typeError) := by
  rw [chainSvc_run_from_none pages fuel hne hfuel, hempty]
  rfl

/-- Witness for C9: a two-page chain whose final page is empty resolves
to the error. -/
theorem empty_final_page_errors_witness :
    getLatestVersion (chainSvc [[5, 6], ([] : List Nat)]) 2 none
      = some (Except.error LErr.typeError) :=
  empty_final_page_errors [[5, 6], []] 2 (by decide) (by decide) (by decide)

end CloudfrontPlugin
